import Mathlib

/-!
# SmartBagan backend — formal model of the optimization and scoring engine

A shallow embedding, in Lean 4, of the scoring and optimization core of the
SmartBagan backend (JavaScript):

* `calculateZoneScore`, `getMoonPhase` — environmental score model
  (`src/services/zoneService.js`);
* `estimateCatch`, `shouldMoveBagan`, `findBestSpots`, `optimizeRoute`,
  `generatePermutations`, `optimizeBaganOperations` — the optimizer service;
* `scanAreaForSpots`, `estimateScoreForLocation` — the candidate-site scanner
  of the optimize route module.

JavaScript numbers are modelled as exact rationals (`ℚ`); `Math.round` as
`jsRound` (floor of `x + 1/2`, which is JavaScript's round-half-up), and
`x.toFixed(n)` round-tripping through `parseFloat` as `roundTo2` (the code
only applies it to non-negative magnitudes, where decimal rounding agrees
with `jsRound` at scale `10^n`).

The Haversine distance `calculateDistance` is built from transcendental
functions (`sin`, `cos`, `atan2`); all results about the decision and routing
layers are therefore stated for an arbitrary distance function
`dist : GeoPos → GeoPos → ℚ`, which is how the rest of the code consumes it.
Likewise the degree-per-km factors of the scanner grid (which use `cos`) are
taken as parameters.
-/

namespace SmartBagan

/-- JavaScript's `Math.round`: round half toward `+∞`. -/
def jsRound (q : ℚ) : ℤ := ⌊q + 1/2⌋

/-- `parseFloat(x.toFixed(2))` for the non-negative magnitudes the code feeds it. -/
def roundTo2 (q : ℚ) : ℚ := (jsRound (q * 100) : ℚ) / 100

/-- `Number(x.toFixed(1))` for the roi percentage. -/
def roundTo1 (q : ℚ) : ℚ := (jsRound (q * 10) : ℚ) / 10

/-- `parseFloat(x.toFixed(4))` used for scanner grid coordinates. -/
def roundTo4 (q : ℚ) : ℚ := (jsRound (q * 10000) : ℚ) / 10000

-- ============================================================================
-- zoneService.js : calculateZoneScore
-- ============================================================================

/-- The numeric content of the reading bundle passed to `calculateZoneScore`:
`data.chlorophyll.value`, `data.sst.value`, `data.moon.illumination`,
`data.waveHeight.value`, `data.wind.speed.value`; a `none` field models an
absent reading object (a falsy `data.x`). -/
structure ZoneData where
  chlorophyll : Option ℚ
  sst : Option ℚ
  moon : Option ℚ
  waveHeight : Option ℚ
  wind : Option ℚ
deriving DecidableEq

/-- One entry of the `breakdown` object: `{ score, max, rating }`. -/
structure FactorScore where
  score : ℤ
  max : ℤ
  rating : String
deriving DecidableEq

/-- Chlorophyll block of `calculateZoneScore` (30 points):
points earned and breakdown entry. -/
def chlorophyllFactor : Option ℚ → ℤ × Option FactorScore
  | none => (0, none)
  | some chl =>
    if chl > 1/2 then (30, some ⟨30, 30, "Excellent"⟩)
    else if chl > 3/10 then (20, some ⟨20, 30, "Good"⟩)
    else if chl > 1/10 then (10, some ⟨10, 30, "Fair"⟩)
    else (0, some ⟨0, 30, "Poor"⟩)

/-- SST block of `calculateZoneScore` (25 points). -/
def sstFactor : Option ℚ → ℤ × Option FactorScore
  | none => (0, none)
  | some temp =>
    if 27 ≤ temp ∧ temp ≤ 30 then (25, some ⟨25, 25, "Optimal"⟩)
    else if 25 ≤ temp ∧ temp ≤ 32 then (15, some ⟨15, 25, "Good"⟩)
    else if 23 ≤ temp ∧ temp ≤ 34 then (5, some ⟨5, 25, "Fair"⟩)
    else (0, some ⟨0, 25, "Poor"⟩)

/-- Moon block of `calculateZoneScore` (20 points); note the `Poor` band still
earns 5 points. -/
def moonFactor : Option ℚ → ℤ × Option FactorScore
  | none => (0, none)
  | some illum =>
    if illum < 30 then (20, some ⟨20, 20, "Excellent"⟩)
    else if illum < 50 then (15, some ⟨15, 20, "Good"⟩)
    else if illum < 70 then (10, some ⟨10, 20, "Fair"⟩)
    else (5, some ⟨5, 20, "Poor"⟩)

/-- Wave block of `calculateZoneScore` (15 points). -/
def waveFactor : Option ℚ → ℤ × Option FactorScore
  | none => (0, none)
  | some wave =>
    if wave < 1 then (15, some ⟨15, 15, "Calm"⟩)
    else if wave < 3/2 then (10, some ⟨10, 15, "Moderate"⟩)
    else if wave < 2 then (5, some ⟨5, 15, "Choppy"⟩)
    else (0, some ⟨0, 15, "Rough"⟩)

/-- Wind block of `calculateZoneScore` (10 points). -/
def windFactor : Option ℚ → ℤ × Option FactorScore
  | none => (0, none)
  | some wind =>
    if wind < 5 then (10, some ⟨10, 10, "Calm"⟩)
    else if wind < 7 then (7, some ⟨7, 10, "Light"⟩)
    else if wind < 10 then (4, some ⟨4, 10, "Moderate"⟩)
    else (0, some ⟨0, 10, "Strong"⟩)

/-- Result of `calculateZoneScore`: `{ score, breakdown, maxScore, actualScore }`
with the breakdown object split into its five optional keys. -/
structure ZoneScoreResult where
  score : ℤ
  maxScore : ℤ
  actualScore : ℤ
  chlorophyllBd : Option FactorScore
  sstBd : Option FactorScore
  moonBd : Option FactorScore
  waveBd : Option FactorScore
  windBd : Option FactorScore
deriving DecidableEq

/-- `calculateZoneScore` of `zoneService.js`. Each factor block increments
`maxScore` unconditionally (`maxScore += k` sits before the `if (data.x)`
guard), while points accrue only for present factors; the final score is
`Math.round((score / maxScore) * 100)`. -/
def calculateZoneScore (data : ZoneData) : ZoneScoreResult :=
  let c := chlorophyllFactor data.chlorophyll
  let s := sstFactor data.sst
  let m := moonFactor data.moon
  let w := waveFactor data.waveHeight
  let wi := windFactor data.wind
  let score : ℤ := c.1 + s.1 + m.1 + w.1 + wi.1
  let maxScore : ℤ := 30 + 25 + 20 + 15 + 10
  let finalScore := jsRound ((score : ℚ) / (maxScore : ℚ) * 100)
  ⟨finalScore, maxScore, score, c.2, s.2, m.2, w.2, wi.2⟩

/-- The scoring total as the specification words it: missing factors omitted
from **both** the accumulated score and the maximum, so
`total = round(100 * earned / (sum of max points of the present factors))`.
(Second definition for comparison with `calculateZoneScore`; follows the
spec's words, not the source.) -/
def specZoneTotal (data : ZoneData) : ℤ :=
  let earned : ℤ := (chlorophyllFactor data.chlorophyll).1 + (sstFactor data.sst).1 +
    (moonFactor data.moon).1 + (waveFactor data.waveHeight).1 + (windFactor data.wind).1
  let presentMax : ℤ :=
    (if data.chlorophyll.isSome then 30 else 0) + (if data.sst.isSome then 25 else 0) +
    (if data.moon.isSome then 20 else 0) + (if data.waveHeight.isSome then 15 else 0) +
    (if data.wind.isSome then 10 else 0)
  jsRound (100 * (earned : ℚ) / (presentMax : ℚ))

-- ============================================================================
-- zoneService.js : getMoonPhase
-- ============================================================================

/-- The Julian Day expression of `getMoonPhase`, from the calendar year, month
(1-based) and day extracted from the input date. -/
def julianDay (year month day : ℤ) : ℚ :=
  367 * (year : ℚ)
    - ((⌊(7 * ((year : ℚ) + (⌊((month : ℚ) + 9) / 12⌋ : ℤ))) / 4⌋ : ℤ) : ℚ)
    + ((⌊(275 * (month : ℚ)) / 9⌋ : ℤ) : ℚ)
    + (day : ℚ) + 17210135 / 10

/-- The local variable `phase` of `getMoonPhase`: fractional part of the number
of synodic months since the reference new moon JD 2451549.5. -/
def moonPhaseValue (year month day : ℤ) : ℚ :=
  let daysSinceNew := julianDay year month day - 24515495 / 10
  let newMoons := daysSinceNew / (2953 / 100)
  newMoons - (⌊newMoons⌋ : ℤ)

/-- Result object of `getMoonPhase` (sans timestamp). -/
structure MoonPhaseResult where
  illumination : ℤ
  phase : String
  quality : String
deriving DecidableEq

/-- `getMoonPhase` of `zoneService.js`. -/
def getMoonPhase (year month day : ℤ) : MoonPhaseResult :=
  let illumination := jsRound (moonPhaseValue year month day * 100)
  let phaseName :=
    if (illumination : ℚ) < 625/100 then "New Moon"
    else if (illumination : ℚ) < 1875/100 then "Waxing Crescent"
    else if (illumination : ℚ) < 3125/100 then "First Quarter"
    else if (illumination : ℚ) < 4375/100 then "Waxing Gibbous"
    else if (illumination : ℚ) < 5625/100 then "Full Moon"
    else if (illumination : ℚ) < 6875/100 then "Waning Gibbous"
    else if (illumination : ℚ) < 8125/100 then "Last Quarter"
    else "Waning Crescent"
  let quality :=
    if illumination < 30 then "excellent" else if illumination < 60 then "good" else "poor"
  ⟨illumination, phaseName, quality⟩

-- ============================================================================
-- optimizer service : configuration and helpers
-- ============================================================================

/-- `CONFIG.fuelPricePerLiter` (Rp per liter). -/
def fuelPricePerLiter : ℚ := 10000

/-- `CONFIG.fuelConsumptionTow` (liter per km when towing). -/
def fuelConsumptionTow : ℚ := 4

/-- `CONFIG.catchPricePerKg` (Rp per kg). -/
def catchPricePerKg : ℚ := 35000

/-- `CONFIG.minProfitThreshold` (minimum Rp profit to justify moving). -/
def minProfitThreshold : ℚ := 50000

/-- `CONFIG.towSpeedKnots`. -/
def towSpeedKnots : ℚ := 5/2

/-- `CONFIG.setupTimeMinutes`. -/
def setupTimeMinutes : ℚ := 20

/-- `CONFIG.maxTowDistance` (max km willing to tow). -/
def maxTowDistance : ℚ := 5

/-- A latitude/longitude pair. -/
structure GeoPos where
  lat : ℚ
  lng : ℚ
deriving DecidableEq

/-- Abstraction of `calculateDistance` (Haversine over `sin`/`cos`/`atan2`):
the decision, planning and routing layers consume it only through calls
`calculateDistance(p.lat, p.lng, q.lat, q.lng)`, modelled as `dist p q`. -/
abbrev DistFn := GeoPos → GeoPos → ℚ

/-- `calculateTowTime`: km → nautical miles → hours at tow speed → minutes. -/
def calculateTowTime (distanceKm : ℚ) : ℚ :=
  distanceKm * (539957 / 1000000) / towSpeedKnots * 60

/-- `calculateFuelCost`. -/
def calculateFuelCost (distanceKm : ℚ) : ℚ :=
  distanceKm * fuelConsumptionTow * fuelPricePerLiter

/-- Result object of `estimateCatch`. -/
structure CatchEstimate where
  min : ℤ
  max : ℤ
  avg : ℤ
deriving DecidableEq

/-- `estimateCatch`: linear catch model; note `avg` is the rounded mean of the
**unrounded** `baseMin`/`baseMax`. -/
def estimateCatch (score : ℚ) : CatchEstimate :=
  let baseMin := score * (6/10)
  let baseMax := score * (9/10)
  ⟨jsRound baseMin, jsRound baseMax, jsRound ((baseMin + baseMax) / 2)⟩

-- ============================================================================
-- optimizer service : shouldMoveBagan
-- ============================================================================

/-- A bagan (floating platform) as consumed by the optimizer:
`{ id, lat, lng, score }` (the name tag is irrelevant to the computation). -/
structure Bagan where
  id : ℕ
  lat : ℚ
  lng : ℚ
  score : ℚ
deriving DecidableEq

/-- A candidate spot: `{ id, lat, lng, score }`. -/
structure Spot where
  id : ℕ
  lat : ℚ
  lng : ℚ
  score : ℚ
deriving DecidableEq

/-- Position of a bagan. -/
def Bagan.pos (b : Bagan) : GeoPos := ⟨b.lat, b.lng⟩

/-- Position of a spot. -/
def Spot.pos (s : Spot) : GeoPos := ⟨s.lat, s.lng⟩

/-- The `analysis` object produced by `shouldMoveBagan`. -/
structure MoveAnalysis where
  currentScore : ℚ
  targetScore : ℚ
  scoreDelta : ℚ
  distance : ℚ
  towTime : ℤ
  setupTime : ℚ
  totalTime : ℤ
  fuelCost : ℤ
  currentExpectedCatch : CatchEstimate
  targetExpectedCatch : CatchEstimate
  extraCatch : ℤ
  extraRevenue : ℤ
  netProfit : ℤ
  roi : ℤ
  worthIt : Bool
deriving DecidableEq

/-- Return value of `shouldMoveBagan`. The too-far early return carries a
`reason` string interpolating the distance and the configured maximum —
modelled by `tooFarReason = some (distance, max)` — and no `analysis` object. -/
structure MoveDecision where
  shouldMove : Bool
  tooFarReason : Option (ℚ × ℚ)
  analysis : Option MoveAnalysis
deriving DecidableEq

/-- `shouldMoveBagan` of the optimizer service, parametric in the distance
function. -/
def shouldMoveBagan (dist : DistFn) (currentBagan : Bagan) (targetSpot : Spot) :
    MoveDecision :=
  let distance := dist currentBagan.pos targetSpot.pos
  if distance > maxTowDistance then
    ⟨false, some (distance, maxTowDistance), none⟩
  else
    let towTime := calculateTowTime distance
    let setupTime := setupTimeMinutes
    let totalTime := towTime + setupTime
    let fuelCost := calculateFuelCost distance
    let currentCatch := estimateCatch currentBagan.score
    let targetCatch := estimateCatch targetSpot.score
    let extraCatchAvg := targetCatch.avg - currentCatch.avg
    let extraRevenue := (extraCatchAvg : ℚ) * catchPricePerKg
    let netProfit := extraRevenue - fuelCost
    let roi := if fuelCost > 0 then netProfit / fuelCost * 100 else 0
    let shouldMove := decide (netProfit ≥ minProfitThreshold)
    ⟨shouldMove, none, some
      { currentScore := currentBagan.score
        targetScore := targetSpot.score
        scoreDelta := targetSpot.score - currentBagan.score
        distance := roundTo2 distance
        towTime := jsRound towTime
        setupTime := setupTime
        totalTime := jsRound totalTime
        fuelCost := jsRound fuelCost
        currentExpectedCatch := currentCatch
        targetExpectedCatch := targetCatch
        extraCatch := extraCatchAvg
        extraRevenue := jsRound extraRevenue
        netProfit := jsRound netProfit
        roi := jsRound roi
        worthIt := shouldMove }⟩

-- ============================================================================
-- optimizer service : findBestSpots
-- ============================================================================

/-- The loop state of the per-bagan selection in `findBestSpots`:
`bestSpot`, `bestAnalysis`, `maxProfit` (initialised to
`CONFIG.minProfitThreshold`). -/
structure BestState where
  bestSpot : Option Spot
  bestAnalysis : Option MoveAnalysis
  maxProfit : ℚ
deriving DecidableEq

/-- One iteration of the inner loop of `findBestSpots`:
`if (decision.shouldMove && decision.analysis.netProfit > maxProfit)` update
all three variables. (When `shouldMove` is false the `&&` short-circuits, so
`decision.analysis` — absent on the too-far branch — is never read.) -/
def bestSpotStep (dist : DistFn) (bagan : Bagan) (st : BestState) (spot : Spot) :
    BestState :=
  let decision := shouldMoveBagan dist bagan spot
  if decision.shouldMove then
    match decision.analysis with
    | some a =>
      if (a.netProfit : ℚ) > st.maxProfit then ⟨some spot, some a, (a.netProfit : ℚ)⟩
      else st
    | none => st
  else st

/-- The inner loop of `findBestSpots` over all available spots. -/
def bestSpotState (dist : DistFn) (bagan : Bagan) (spots : List Spot) : BestState :=
  spots.foldl (bestSpotStep dist bagan) ⟨none, none, minProfitThreshold⟩

/-- The `recommendation` field: either a move to the best spot (with the
`bestAnalysis` value as found, which JavaScript does not re-check) or a stay
with the reason string `bestAnalysis ? 'Not profitable enough' : 'No better
spot found'` and the current expected catch. -/
inductive Recommendation where
  | move (targetSpot : Spot) (analysis : Option MoveAnalysis)
  | stay (reason : String) (score : ℚ) (expectedCatch : CatchEstimate)
deriving DecidableEq

/-- One element of the list returned by `findBestSpots`. -/
structure BaganRecommendation where
  bagan : Bagan
  recommendation : Recommendation
deriving DecidableEq

/-- `findBestSpots` of the optimizer service. -/
def findBestSpots (dist : DistFn) (currentBagans : List Bagan)
    (availableSpots : List Spot) : List BaganRecommendation :=
  currentBagans.map (fun bagan =>
    let st := bestSpotState dist bagan availableSpots
    match st.bestSpot with
    | some spot => ⟨bagan, .move spot st.bestAnalysis⟩
    | none =>
      ⟨bagan,
        .stay (if st.bestAnalysis.isSome then "Not profitable enough"
               else "No better spot found")
          bagan.score (estimateCatch bagan.score)⟩)

-- ============================================================================
-- optimizer service : generatePermutations and optimizeRoute
-- ============================================================================

/-- The body of the `for (let i ...)` loop of `generatePermutations`: each
element of the array paired with the remaining elements
(`arr.slice(0,i).concat(arr.slice(i+1))`), in index order. -/
def removeEach {α : Type} : List α → List (α × List α)
  | [] => []
  | x :: xs => (x, xs) :: (removeEach xs).map (fun p => (p.1, x :: p.2))

/-- Each `remaining` produced by `removeEach` is one element shorter. -/
theorem removeEach_length {α : Type} :
    ∀ {l : List α} {p : α × List α}, p ∈ removeEach l → p.2.length + 1 = l.length := by
  intro l
  induction l with
  | nil => intro p h; simp [removeEach] at h
  | cons x xs ih =>
    intro p h
    simp only [removeEach, List.mem_cons, List.mem_map] at h
    rcases h with h | ⟨q, hq, rfl⟩
    · subst h; simp
    · simpa using ih hq

/-- `generatePermutations` of the optimizer service: arrays of length ≤ 1 are
returned as the single permutation; otherwise each element is put first in
front of every permutation of the rest. -/
def generatePermutations {α : Type} (arr : List α) : List (List α) :=
  if _h : arr.length ≤ 1 then [arr]
  else
    (removeEach arr).attach.flatMap (fun p =>
      (generatePermutations p.1.2).map (fun perm => p.1.1 :: perm))
termination_by arr.length
decreasing_by
  have := removeEach_length p.2
  omega

/-- An element of the `bagansToMove` array handed to `optimizeRoute`: a full
recommendation object with `action == 'move'`, of which the route code reads
`item.bagan`, `item.recommendation.targetSpot` and
`item.recommendation.analysis`. (`analysis` is always present for a move
recommendation — see `bestState_invariant` below.) -/
structure MoveItem where
  bagan : Bagan
  targetSpot : Spot
  analysis : MoveAnalysis
deriving DecidableEq

/-- The per-permutation total distance of the `optimizeRoute` search loop:
pickup leg from the running position to the bagan, tow leg from the bagan to
its target spot, running position updated to the target spot. -/
def permDistance (dist : DistFn) (kapalPosition : GeoPos) : List MoveItem → ℚ :=
  fun perm =>
    (perm.foldl
      (fun (st : ℚ × GeoPos) item =>
        (st.1 + dist st.2 item.bagan.pos + dist item.bagan.pos item.targetSpot.pos,
         item.targetSpot.pos))
      (0, kapalPosition)).1

/-- The permutation-search loop of `optimizeRoute`: starting from
`bestRoute = null, minDistance = Infinity`, adopt a permutation exactly when
its distance is strictly below the minimum so far (so ties keep the
first-found permutation). -/
def pickFirstMin {α : Type} (d : α → ℚ) (perms : List α) : Option (α × ℚ) :=
  perms.foldl
    (fun best perm =>
      match best with
      | none => some (perm, d perm)
      | some (b, m) => if d perm < m then some (perm, d perm) else some (b, m))
    none

/-- One entry of the `routeDetails` array built by `optimizeRoute`. -/
structure RouteStep where
  step : ℕ
  baganId : ℕ
  fromPos : GeoPos
  pickupLocation : GeoPos
  targetLocation : Spot
  distanceToPickup : ℚ
  distanceToTow : ℚ
  totalStepDistance : ℚ
  timeToPickup : ℤ
  timeToTow : ℤ
  setupTime : ℚ
  totalStepTime : ℤ
  cumulativeDistance : ℚ
  cumulativeTime : ℤ
  targetScore : ℚ
  expectedProfit : ℤ
deriving DecidableEq

/-- The detail-recomputation loop of `optimizeRoute` over the chosen best
route; returns the `routeDetails` array and the final (unrounded)
`cumulativeDistance` and `cumulativeTime`. Note the tow leg reuses the
already-rounded `analysis.distance` and `analysis.towTime`. -/
def buildRouteDetails (dist : DistFn) (kapalPosition : GeoPos)
    (bestRoute : List MoveItem) : List RouteStep × ℚ × ℚ :=
  let final := bestRoute.foldl
    (fun (st : List RouteStep × ℚ × ℚ × GeoPos × ℕ) item =>
      let (details, cumDist, cumTime, currentPos, i) := st
      let distToPickup := dist currentPos item.bagan.pos
      let distToTow := item.analysis.distance
      let timeToPickup := calculateTowTime distToPickup
      let timeToTow := item.analysis.towTime
      let stepDistance := distToPickup + distToTow
      let stepTime := timeToPickup + (timeToTow : ℚ) + setupTimeMinutes
      let cumDist' := cumDist + stepDistance
      let cumTime' := cumTime + stepTime
      (details ++ [{
          step := i + 1
          baganId := item.bagan.id
          fromPos := currentPos
          pickupLocation := item.bagan.pos
          targetLocation := item.targetSpot
          distanceToPickup := roundTo2 distToPickup
          distanceToTow := roundTo2 distToTow
          totalStepDistance := roundTo2 stepDistance
          timeToPickup := jsRound timeToPickup
          timeToTow := jsRound (timeToTow : ℚ)
          setupTime := setupTimeMinutes
          totalStepTime := jsRound stepTime
          cumulativeDistance := roundTo2 cumDist'
          cumulativeTime := jsRound cumTime'
          targetScore := item.targetSpot.score
          expectedProfit := item.analysis.netProfit }],
        cumDist', cumTime', item.targetSpot.pos, i + 1))
    ([], 0, 0, kapalPosition, 0)
  (final.1, final.2.1, final.2.2.1)

/-- The `summary` object of the N ≥ 2 branch of `optimizeRoute`. -/
structure RouteSummary where
  totalBagans : ℕ
  totalDistance : ℚ
  totalTime : ℤ
  totalFuelCost : ℤ
  totalExpectedProfit : ℤ
deriving DecidableEq

/-- The two shapes `optimizeRoute` can return: the single-item object
`{ route: [item], totalDistance, totalTime: 0 }` — which has **no** `summary`
property — and the general `{ route: routeDetails, summary }`. -/
inductive RouteResult where
  | single (item : MoveItem) (totalDistance : ℚ) (totalTime : ℚ)
  | multi (route : List RouteStep) (summary : RouteSummary)
deriving DecidableEq

/-- `route.summary` as JavaScript property access: `none` when the property is
absent (the `single` shape). -/
def RouteResult.summary? : RouteResult → Option RouteSummary
  | .single _ _ _ => none
  | .multi _ s => some s

/-- `optimizeRoute` of the optimizer service: `null` for an empty move set,
the trivial single-step object for one item, and otherwise the best of all
permutations, with detailed route accounting. -/
def optimizeRoute (dist : DistFn) (kapalPosition : GeoPos)
    (bagansToMove : List MoveItem) : Option RouteResult :=
  match bagansToMove with
  | [] => none
  | [item] => some (.single item (dist kapalPosition item.bagan.pos) 0)
  | items =>
    match pickFirstMin (permDistance dist kapalPosition) (generatePermutations items) with
    | none => none
    | some (bestRoute, _) =>
      let built := buildRouteDetails dist kapalPosition bestRoute
      some (.multi built.1
        { totalBagans := bestRoute.length
          totalDistance := roundTo2 built.2.1
          totalTime := jsRound built.2.2
          totalFuelCost := jsRound (calculateFuelCost built.2.1)
          totalExpectedProfit :=
            bestRoute.foldl (fun sum item => sum + item.analysis.netProfit) 0 })

-- ============================================================================
-- optimizer service : optimizeBaganOperations (orchestrator)
-- ============================================================================

/-- `recommendations.filter(r => r.recommendation.action === 'move')`, with
each surviving object viewed through the three fields the route code reads.
A `.move` carrying no analysis cannot occur (`bestState_invariant`). -/
def moveItems (recs : List BaganRecommendation) : List MoveItem :=
  recs.filterMap (fun r =>
    match r.recommendation with
    | .move spot (some a) => some ⟨r.bagan, spot, a⟩
    | .move _ none => none
    | .stay _ _ _ => none)

/-- The `summary` block of the orchestrator result. -/
structure OptimizationSummary where
  totalBagans : ℕ
  bagansToMove : ℕ
  bagansToStay : ℤ
  worthMoving : Bool
deriving DecidableEq

/-- The `estimatedTotals` block. `roi` is
`((totalExpectedProfit - totalFuelCost) / totalFuelCost * 100).toFixed(1)`;
when `totalFuelCost = 0` the JavaScript division produces a non-finite value
(`Infinity`/`NaN`), modelled as `none`. -/
structure EstimatedTotals where
  totalDistance : ℚ
  totalTime : ℤ
  totalFuelCost : ℤ
  totalExpectedProfit : ℤ
  netProfit : ℤ
  roi : Option ℚ
deriving DecidableEq

/-- The orchestrator's result object (sans timestamp). -/
structure OptimizationResult where
  summary : OptimizationSummary
  recommendations : List BaganRecommendation
  optimizedRoute : Option RouteResult
  estimatedTotals : Option EstimatedTotals
deriving DecidableEq

/-- `optimizeBaganOperations` of the optimizer service. The outer `none`
models an uncaught JavaScript `TypeError`: when `optimizedRoute` is non-null
the code evaluates `optimizedRoute.summary.totalDistance`, which throws if the
route object has no `summary` property (the single-item shape). -/
def optimizeBaganOperations (dist : DistFn) (kapalPosition : GeoPos)
    (currentBagans : List Bagan) (candidateSpots : List Spot) :
    Option OptimizationResult :=
  let recommendations := findBestSpots dist currentBagans candidateSpots
  let bagansToMove := moveItems recommendations
  let optimizedRoute :=
    if 0 < bagansToMove.length then optimizeRoute dist kapalPosition bagansToMove
    else none
  let summary : OptimizationSummary :=
    { totalBagans := currentBagans.length
      bagansToMove := bagansToMove.length
      bagansToStay := (currentBagans.length : ℤ) - (bagansToMove.length : ℤ)
      worthMoving := decide (0 < bagansToMove.length) }
  match optimizedRoute with
  | none => some ⟨summary, recommendations, none, none⟩
  | some route =>
    match route.summary? with
    | none => none
    | some s =>
      some ⟨summary, recommendations, some route,
        some
          { totalDistance := s.totalDistance
            totalTime := s.totalTime
            totalFuelCost := s.totalFuelCost
            totalExpectedProfit := s.totalExpectedProfit
            netProfit := s.totalExpectedProfit - s.totalFuelCost
            roi :=
              if s.totalFuelCost = 0 then none
              else some (roundTo1
                (((s.totalExpectedProfit - s.totalFuelCost : ℤ) : ℚ) /
                  (s.totalFuelCost : ℚ) * 100)) }⟩

-- ============================================================================
-- optimize routes module : scanAreaForSpots / estimateScoreForLocation
-- ============================================================================

/-- A candidate produced by the scanner:
`{ id, lat, lng, score, estimatedCatch }` (the `SPOT_n` id kept as `n`). -/
structure ScanSpot where
  id : ℕ
  lat : ℚ
  lng : ℚ
  score : ℚ
  estimatedCatch : CatchEstimate
deriving DecidableEq

/-- `estimateScoreForLocation`: fetch the environmental bundle for the point
(the external collaborator, abstracted as `fetch`), score it with
`calculateZoneScore`; any failure is caught and replaced by the fixed default
score 75. -/
def estimateScoreForLocation (fetch : ℚ → ℚ → Except String ZoneData)
    (lat lng : ℚ) : ℚ :=
  match fetch lat lng with
  | .ok data => (((calculateZoneScore data).score : ℤ) : ℚ)
  | .error _ => 75

/-- The integer grid offsets `-stepsPerSide .. stepsPerSide` of the scanner
loops (empty when `stepsPerSide < 0`, as in JavaScript). -/
def gridOffsets (stepsPerSide : ℤ) : List ℤ :=
  (List.range (2 * stepsPerSide + 1).toNat).map (fun i => -stepsPerSide + (i : ℤ))

/-- Descending insertion by `score`, used to model
`spots.sort((a, b) => b.score - a.score)`. -/
def insertDesc (s : ScanSpot) : List ScanSpot → List ScanSpot
  | [] => [s]
  | x :: xs => if s.score > x.score then s :: x :: xs else x :: insertDesc s xs

/-- Insertion sort into descending `score` order, modelling the JavaScript
`Array.prototype.sort` call with comparator `(a, b) => b.score - a.score`
(the comparator only constrains the score order of the output). -/
def sortByScoreDesc : List ScanSpot → List ScanSpot
  | [] => []
  | x :: xs => insertDesc x (sortByScoreDesc xs)

/-- One grid point of the scanner loop body: skip points beyond the radius or
within 0.3 km of an existing bagan; otherwise score the point (with the 75
fallback) and append it — with the running `spotId` — when the score is at
least 70. -/
def scanStep (dist : DistFn) (fetch : ℚ → ℚ → Except String ZoneData)
    (center : GeoPos) (currentBagans : List Bagan) (radiusKm : ℚ)
    (st : List ScanSpot × ℕ) (pt : ℚ × ℚ) : List ScanSpot × ℕ :=
  let lat := pt.1
  let lng := pt.2
  if dist center ⟨lat, lng⟩ > radiusKm then st
  else if currentBagans.any (fun bagan => dist bagan.pos ⟨lat, lng⟩ < 3/10) then st
  else
    let score := estimateScoreForLocation fetch lat lng
    if score ≥ 70 then
      (st.1 ++ [⟨st.2, roundTo4 lat, roundTo4 lng, score, estimateCatch score⟩],
       st.2 + 1)
    else st

/-- The grid walk of `scanAreaForSpots`: the unsorted accumulated spot list. -/
def scanSpots (dist : DistFn) (kmPerDegreeLng : ℚ)
    (fetch : ℚ → ℚ → Except String ZoneData)
    (center : GeoPos) (currentBagans : List Bagan) (radiusKm : ℚ) :
    List ScanSpot :=
  let gridSize : ℚ := 1/2
  let stepsPerSide : ℤ := ⌈radiusKm / gridSize⌉
  let kmPerDegreeLat : ℚ := 111
  let degPerStepLat := gridSize / kmPerDegreeLat
  let degPerStepLng := gridSize / kmPerDegreeLng
  let points := (gridOffsets stepsPerSide).flatMap (fun latStep =>
    (gridOffsets stepsPerSide).map (fun lngStep =>
      ((center.lat + latStep * degPerStepLat), (center.lng + lngStep * degPerStepLng))))
  (points.foldl (scanStep dist fetch center currentBagans radiusKm) ([], 1)).1

/-- `scanAreaForSpots` of the optimize routes module: the grid walk of
`scanSpots`, sorted descending by score, truncated to the top 20.
`kmPerDegreeLng` — in the source `111 * cos(center.lat * π/180)` — is a
parameter, like the Haversine `dist`. -/
def scanAreaForSpots (dist : DistFn) (kmPerDegreeLng : ℚ)
    (fetch : ℚ → ℚ → Except String ZoneData)
    (center : GeoPos) (currentBagans : List Bagan) (radiusKm : ℚ) :
    List ScanSpot :=
  (sortByScoreDesc (scanSpots dist kmPerDegreeLng fetch center currentBagans radiusKm)).take 20

-- ============================================================================
-- Derived notions used to state the selection properties
-- ============================================================================

/-- The rounded `netProfit` the selection loop of `findBestSpots` compares
(`decision.analysis.netProfit`); 0 when no analysis exists (never read in
that case, as `&&` short-circuits). -/
def moveNet (dist : DistFn) (b : Bagan) (s : Spot) : ℤ :=
  match (shouldMoveBagan dist b s).analysis with
  | some a => a.netProfit
  | none => 0

/-- A spot is adoptable by the selection loop: `shouldMove` holds and its
(rounded) `netProfit` exceeds `CONFIG.minProfitThreshold`. -/
def qualifies (dist : DistFn) (b : Bagan) (s : Spot) : Prop :=
  (shouldMoveBagan dist b s).shouldMove = true ∧
  (moveNet dist b s : ℚ) > minProfitThreshold

/-- The unrounded net profit of moving `b` to `s`, as the spec describes the
comparison value: extra expected catch times price minus fuel cost. -/
def unroundedNet (dist : DistFn) (b : Bagan) (s : Spot) : ℚ :=
  (((estimateCatch s.score).avg - (estimateCatch b.score).avg : ℤ) : ℚ) *
    catchPricePerKg - calculateFuelCost (dist b.pos s.pos)

/-- The per-platform selection as the specification words it: among candidate
sites with `worthIt == true` and **unrounded** `netProfit` strictly above the
threshold, pick the maximum unrounded `netProfit`, ties to the first
encountered. (Second definition for comparison with `bestSpotState`; follows
the spec's words, not the source.) -/
def specBestSpot (dist : DistFn) (b : Bagan) (spots : List Spot) : Option Spot :=
  (spots.foldl
    (fun (best : Option (Spot × ℚ)) s =>
      let net := unroundedNet dist b s
      if dist b.pos s.pos ≤ maxTowDistance ∧ net ≥ minProfitThreshold ∧
          net > minProfitThreshold then
        match best with
        | none => some (s, net)
        | some (b0, m) => if net > m then some (s, net) else some (b0, m)
      else best)
    none).map (fun p => p.1)

-- ============================================================================
-- Helper lemmas
-- ============================================================================

/-- Rounding an integer-valued rational is the identity. -/
theorem jsRound_intCast (n : ℤ) : jsRound (n : ℚ) = n := by
  unfold jsRound
  rw [Int.floor_eq_iff]
  exact ⟨by linarith, by linarith⟩

/-- Chlorophyll points lie in `[0, 30]`. -/
theorem chlorophyllFactor_bounds (c : Option ℚ) :
    0 ≤ (chlorophyllFactor c).1 ∧ (chlorophyllFactor c).1 ≤ 30 := by
  cases c <;> simp only [chlorophyllFactor] <;> (try split_ifs) <;> norm_num

/-- SST points lie in `[0, 25]`. -/
theorem sstFactor_bounds (c : Option ℚ) :
    0 ≤ (sstFactor c).1 ∧ (sstFactor c).1 ≤ 25 := by
  cases c <;> simp only [sstFactor] <;> (try split_ifs) <;> norm_num

/-- Moon points lie in `[0, 20]`. -/
theorem moonFactor_bounds (c : Option ℚ) :
    0 ≤ (moonFactor c).1 ∧ (moonFactor c).1 ≤ 20 := by
  cases c <;> simp only [moonFactor] <;> (try split_ifs) <;> norm_num

/-- Wave points lie in `[0, 15]`. -/
theorem waveFactor_bounds (c : Option ℚ) :
    0 ≤ (waveFactor c).1 ∧ (waveFactor c).1 ≤ 15 := by
  cases c <;> simp only [waveFactor] <;> (try split_ifs) <;> norm_num

/-- Wind points lie in `[0, 10]`. -/
theorem windFactor_bounds (c : Option ℚ) :
    0 ≤ (windFactor c).1 ∧ (windFactor c).1 ≤ 10 := by
  cases c <;> simp only [windFactor] <;> (try split_ifs) <;> norm_num

-- ============================================================================
-- C1 — partial bundles and the score range
-- ============================================================================

/-- C1, counterexample: with only a chlorophyll reading (value 0.6) present,
`calculateZoneScore` returns total 30, whereas the claimed renormalized
formula `round(100 * earned / (max of present factors))` gives 100 — so
missing factors are *not* omitted from `maxScore`. -/
theorem calculateZoneScore_spec_formula_counterexample :
    (calculateZoneScore ⟨some (6/10), none, none, none, none⟩).score = 30 ∧
    (calculateZoneScore ⟨some (6/10), none, none, none, none⟩).maxScore = 100 ∧
    specZoneTotal ⟨some (6/10), none, none, none, none⟩ = 100 ∧
    (calculateZoneScore ⟨some (6/10), none, none, none, none⟩).score ≠
      specZoneTotal ⟨some (6/10), none, none, none, none⟩ := by
  refine ⟨?_, ?_, ?_, ?_⟩ <;>
    · simp only [calculateZoneScore, specZoneTotal, chlorophyllFactor, sstFactor,
        moonFactor, waveFactor, windFactor, jsRound]
      norm_num [Int.floor_eq_iff]

/-- C1, amended: `calculateZoneScore` always uses `maxScore = 100`
(each factor's maximum is added unconditionally, present or not); the total
equals the plain sum of the points of the present factors, and lies in
`[0, 100]` for every bundle. -/
theorem calculateZoneScore_range (data : ZoneData) :
    (calculateZoneScore data).maxScore = 100 ∧
    (calculateZoneScore data).score = (calculateZoneScore data).actualScore ∧
    0 ≤ (calculateZoneScore data).score ∧ (calculateZoneScore data).score ≤ 100 := by
  obtain ⟨hc0, hc1⟩ := chlorophyllFactor_bounds data.chlorophyll
  obtain ⟨hs0, hs1⟩ := sstFactor_bounds data.sst
  obtain ⟨hm0, hm1⟩ := moonFactor_bounds data.moon
  obtain ⟨hw0, hw1⟩ := waveFactor_bounds data.waveHeight
  obtain ⟨hwi0, hwi1⟩ := windFactor_bounds data.wind
  have hsum : (calculateZoneScore data).actualScore =
      (chlorophyllFactor data.chlorophyll).1 + (sstFactor data.sst).1 +
      (moonFactor data.moon).1 + (waveFactor data.waveHeight).1 +
      (windFactor data.wind).1 := rfl
  have hscore : (calculateZoneScore data).score =
      jsRound (((calculateZoneScore data).actualScore : ℚ) / 100 * 100) := rfl
  have heq : (((calculateZoneScore data).actualScore : ℚ) / 100 * 100) =
      ((calculateZoneScore data).actualScore : ℚ) := by ring
  have hid : (calculateZoneScore data).score = (calculateZoneScore data).actualScore := by
    rw [hscore, heq, jsRound_intCast]
  refine ⟨rfl, hid, ?_, ?_⟩ <;> rw [hid, hsum] <;> omega

-- ============================================================================
-- C6 — estimateCatch
-- ============================================================================

/-- C6, counterexample: at score 3 the code returns `avg = 2`
(rounding the mean of the *unrounded* 1.8 and 2.7), while the claimed
`round((min + max) / 2)` over the already-rounded `min = 2`, `max = 3`
gives 3. -/
theorem estimateCatch_avg_counterexample :
    (estimateCatch 3).min = 2 ∧ (estimateCatch 3).max = 3 ∧
    (estimateCatch 3).avg = 2 ∧
    jsRound ((((estimateCatch 3).min : ℚ) + ((estimateCatch 3).max : ℚ)) / 2) = 3 ∧
    (estimateCatch 3).avg ≠
      jsRound ((((estimateCatch 3).min : ℚ) + ((estimateCatch 3).max : ℚ)) / 2) := by
  refine ⟨?_, ?_, ?_, ?_, ?_⟩ <;>
    · simp only [estimateCatch, jsRound]
      norm_num [Int.floor_eq_iff]

/-- C6, amended: `min` and `max` are as claimed, but `avg` is the rounded mean
of the unrounded base values, i.e. `round(score * 0.75)`. -/
theorem estimateCatch_formulas (score : ℚ) :
    estimateCatch score =
      ⟨jsRound (score * (6/10)), jsRound (score * (9/10)), jsRound (score * (3/4))⟩ := by
  simp only [estimateCatch]
  congr 1
  ring_nf

-- ============================================================================
-- C7 — moon phase range
-- ============================================================================

/-- C7, counterexample: on 2024-06-06 the phase fraction is 2947/2953 ∈ [0,1),
yet `illumination = round(phase * 100) = 100` — the claimed bound
`illumination < 100` fails. -/
theorem getMoonPhase_illumination_100_counterexample :
    moonPhaseValue 2024 6 6 = 2947/2953 ∧
    0 ≤ moonPhaseValue 2024 6 6 ∧ moonPhaseValue 2024 6 6 < 1 ∧
    (getMoonPhase 2024 6 6).illumination = 100 := by
  refine ⟨?_, ?_, ?_, ?_⟩ <;>
    · simp only [getMoonPhase, moonPhaseValue, julianDay, jsRound]
      norm_num [Int.floor_eq_iff]

/-- C7, amended: for every calendar date the phase fraction lies in `[0, 1)`
and `illumination = round(phase * 100)` lies in `[0, 100]` — the value 100 is
attainable (see the counterexample), so the range is closed above. -/
theorem getMoonPhase_illumination_range (year month day : ℤ) :
    0 ≤ moonPhaseValue year month day ∧ moonPhaseValue year month day < 1 ∧
    (getMoonPhase year month day).illumination =
      jsRound (moonPhaseValue year month day * 100) ∧
    0 ≤ (getMoonPhase year month day).illumination ∧
    (getMoonPhase year month day).illumination ≤ 100 := by
  set x := (julianDay year month day - 24515495 / 10) / (2953 / 100) with hx
  have hphase : moonPhaseValue year month day = x - (⌊x⌋ : ℤ) := rfl
  have h0 : 0 ≤ moonPhaseValue year month day := by
    rw [hphase]; have := Int.floor_le x; linarith
  have h1 : moonPhaseValue year month day < 1 := by
    rw [hphase]; have := Int.lt_floor_add_one x; push_cast at this ⊢; linarith
  have hillum : (getMoonPhase year month day).illumination =
      jsRound (moonPhaseValue year month day * 100) := rfl
  refine ⟨h0, h1, hillum, ?_, ?_⟩
  · rw [hillum]
    unfold jsRound
    apply Int.floor_nonneg.mpr
    nlinarith
  · rw [hillum]
    unfold jsRound
    have : moonPhaseValue year month day * 100 + 1/2 < 101 := by nlinarith
    have hlt : ⌊moonPhaseValue year month day * 100 + 1/2⌋ < 101 := by
      rw [Int.floor_lt]; push_cast; linarith
    omega

-- ============================================================================
-- C5 — the too-far short circuit
-- ============================================================================

/-- C5: whenever the distance between a bagan and a target spot exceeds
`CONFIG.maxTowDistance`, `shouldMoveBagan` returns `shouldMove = false` with a
reason carrying that distance and the configured maximum, and produces no
analysis object — no cost or revenue computation happens. -/
theorem shouldMoveBagan_tooFar (dist : DistFn) (b : Bagan) (s : Spot)
    (h : dist b.pos s.pos > maxTowDistance) :
    shouldMoveBagan dist b s = ⟨false, some (dist b.pos s.pos, maxTowDistance), none⟩ := by
  simp only [shouldMoveBagan, if_pos h]

/-- Witness for C5 at a concrete input: distance 6 km > 5 km. -/
theorem shouldMoveBagan_tooFar_witness :
    (6 : ℚ) > maxTowDistance ∧
    shouldMoveBagan (fun _ _ => 6) ⟨1, 0, 0, 0⟩ ⟨1, 1, 0, 100⟩ =
      ⟨false, some (6, maxTowDistance), none⟩ :=
  ⟨by norm_num [maxTowDistance],
   shouldMoveBagan_tooFar (fun _ _ => 6) ⟨1, 0, 0, 0⟩ ⟨1, 1, 0, 100⟩
     (by norm_num [maxTowDistance])⟩

-- ============================================================================
-- The selection loop of findBestSpots
-- ============================================================================

/-- Whenever `shouldMoveBagan` recommends a move, it also produced an analysis
object (only the too-far short circuit omits it, and that path sets
`shouldMove = false`). -/
theorem shouldMoveBagan_analysis_of_shouldMove (dist : DistFn) (b : Bagan) (s : Spot)
    (h : (shouldMoveBagan dist b s).shouldMove = true) :
    ∃ a, (shouldMoveBagan dist b s).analysis = some a := by
  by_cases hfar : dist b.pos s.pos > maxTowDistance
  · rw [shouldMoveBagan_tooFar dist b s hfar] at h
    simp at h
  · simp only [shouldMoveBagan, if_neg hfar]
    exact ⟨_, rfl⟩

/-- A step of the selection loop leaves the state unchanged when the decision
is not to move. -/
theorem bestSpotStep_skip_notMove {dist : DistFn} {b : Bagan} {q : Spot}
    (st : BestState) (h : (shouldMoveBagan dist b q).shouldMove = false) :
    bestSpotStep dist b st q = st := by
  unfold bestSpotStep
  dsimp only
  rw [h]
  simp

/-- A step of the selection loop leaves the state unchanged when the rounded
profit does not beat the current maximum. -/
theorem bestSpotStep_skip_le {dist : DistFn} {b : Bagan} {q : Spot}
    (st : BestState) (a : MoveAnalysis)
    (ha : (shouldMoveBagan dist b q).analysis = some a)
    (h : ¬ ((a.netProfit : ℚ) > st.maxProfit)) :
    bestSpotStep dist b st q = st := by
  unfold bestSpotStep
  dsimp only
  rw [ha]
  simp only [if_neg h, ite_self]

/-- A step of the selection loop adopts the spot when the decision is to move
and the rounded profit strictly beats the current maximum. -/
theorem bestSpotStep_adopt {dist : DistFn} {b : Bagan} {q : Spot}
    (st : BestState) (a : MoveAnalysis)
    (hm : (shouldMoveBagan dist b q).shouldMove = true)
    (ha : (shouldMoveBagan dist b q).analysis = some a)
    (h : (a.netProfit : ℚ) > st.maxProfit) :
    bestSpotStep dist b st q = ⟨some q, some a, (a.netProfit : ℚ)⟩ := by
  unfold bestSpotStep
  dsimp only
  rw [ha, hm]
  simp only [if_pos h, if_true]

/-- `moveNet` reads the analysis' rounded profit. -/
theorem moveNet_eq {dist : DistFn} {b : Bagan} {s : Spot} {a : MoveAnalysis}
    (ha : (shouldMoveBagan dist b s).analysis = some a) :
    moveNet dist b s = a.netProfit := by
  unfold moveNet
  rw [ha]

/-- Invariant of the selection loop started from an adopted qualifying spot:
the final state holds a qualifying spot of maximal rounded profit among the
start spot and the remaining list, ties resolved to the earliest adoption. -/
theorem bestSpot_fold_aux (dist : DistFn) (b : Bagan) :
    ∀ (l : List Spot) (s₀ : Spot), qualifies dist b s₀ →
    ∃ s, l.foldl (bestSpotStep dist b)
        ⟨some s₀, (shouldMoveBagan dist b s₀).analysis, (moveNet dist b s₀ : ℚ)⟩ =
        ⟨some s, (shouldMoveBagan dist b s).analysis, (moveNet dist b s : ℚ)⟩ ∧
      qualifies dist b s ∧
      moveNet dist b s₀ ≤ moveNet dist b s ∧
      (∀ q ∈ l, qualifies dist b q → moveNet dist b q ≤ moveNet dist b s) ∧
      (s = s₀ ∨ ∃ l₁ l₂, l = l₁ ++ s :: l₂ ∧ moveNet dist b s₀ < moveNet dist b s ∧
        ∀ q ∈ l₁, qualifies dist b q → moveNet dist b q < moveNet dist b s) := by
  intro l
  induction l with
  | nil =>
    intro s₀ h₀
    exact ⟨s₀, rfl, h₀, le_refl _, by simp, Or.inl rfl⟩
  | cons q l ih =>
    intro s₀ h₀
    rw [List.foldl_cons]
    by_cases hm : (shouldMoveBagan dist b q).shouldMove = true
    · obtain ⟨a, ha⟩ := shouldMoveBagan_analysis_of_shouldMove dist b q hm
      by_cases hcmp : (a.netProfit : ℚ) > (moveNet dist b s₀ : ℚ)
      · -- the loop adopts q
        rw [bestSpotStep_adopt (⟨some s₀, (shouldMoveBagan dist b s₀).analysis, (moveNet dist b s₀ : ℚ)⟩ : BestState) a hm ha hcmp]
        have hqnet : moveNet dist b q = a.netProfit := moveNet_eq ha
        have hq : qualifies dist b q := by
          refine ⟨hm, ?_⟩
          rw [hqnet]
          exact lt_trans h₀.2 hcmp
        have hstate :
            (⟨some q, some a, ((a.netProfit : ℚ))⟩ : BestState) =
            ⟨some q, (shouldMoveBagan dist b q).analysis, (moveNet dist b q : ℚ)⟩ := by
          rw [ha, hqnet]
        rw [hstate]
        obtain ⟨s, hfold, hsq, hle, hall, hfirst⟩ := ih q hq
        have hs₀q : moveNet dist b s₀ < moveNet dist b q := by
          rw [hqnet]; exact_mod_cast hcmp
        refine ⟨s, hfold, hsq, le_of_lt (lt_of_lt_of_le hs₀q hle), ?_, ?_⟩
        · intro q' hq' hq'q
          rcases List.mem_cons.mp hq' with rfl | hq'l
          · exact hle
          · exact hall q' hq'l hq'q
        · rcases hfirst with rfl | ⟨l₁, l₂, rfl, hlt, hstrict⟩
          · exact Or.inr ⟨[], l, rfl, hs₀q, by simp⟩
          · refine Or.inr ⟨q :: l₁, l₂, rfl, lt_trans hs₀q hlt, ?_⟩
            intro q' hq' hq'q
            rcases List.mem_cons.mp hq' with rfl | hq'l₁
            · exact lt_of_le_of_lt (le_refl _) hlt
            · exact hstrict q' hq'l₁ hq'q
      · -- profit does not beat the running maximum: state unchanged
        rw [bestSpotStep_skip_le (⟨some s₀, (shouldMoveBagan dist b s₀).analysis, (moveNet dist b s₀ : ℚ)⟩ : BestState) a ha hcmp]
        obtain ⟨s, hfold, hsq, hle, hall, hfirst⟩ := ih s₀ h₀
        have hqle : moveNet dist b q ≤ moveNet dist b s₀ := by
          rw [moveNet_eq ha]; exact_mod_cast not_lt.mp hcmp
        refine ⟨s, hfold, hsq, hle, ?_, ?_⟩
        · intro q' hq' hq'q
          rcases List.mem_cons.mp hq' with rfl | hq'l
          · exact le_trans hqle hle
          · exact hall q' hq'l hq'q
        · rcases hfirst with rfl | ⟨l₁, l₂, rfl, hlt, hstrict⟩
          · exact Or.inl rfl
          · refine Or.inr ⟨q :: l₁, l₂, rfl, hlt, ?_⟩
            intro q' hq' hq'q
            rcases List.mem_cons.mp hq' with rfl | hq'l₁
            · exact lt_of_le_of_lt hqle hlt
            · exact hstrict q' hq'l₁ hq'q
    · -- not worth moving: state unchanged and q cannot qualify
      rw [bestSpotStep_skip_notMove (⟨some s₀, (shouldMoveBagan dist b s₀).analysis, (moveNet dist b s₀ : ℚ)⟩ : BestState) (Bool.not_eq_true _ ▸ hm)]
      obtain ⟨s, hfold, hsq, hle, hall, hfirst⟩ := ih s₀ h₀
      have hqnot : ¬ qualifies dist b q := fun hq => hm hq.1
      refine ⟨s, hfold, hsq, hle, ?_, ?_⟩
      · intro q' hq' hq'q
        rcases List.mem_cons.mp hq' with rfl | hq'l
        · exact absurd hq'q hqnot
        · exact hall q' hq'l hq'q
      · rcases hfirst with rfl | ⟨l₁, l₂, rfl, hlt, hstrict⟩
        · exact Or.inl rfl
        · refine Or.inr ⟨q :: l₁, l₂, rfl, hlt, ?_⟩
          intro q' hq' hq'q
          rcases List.mem_cons.mp hq' with rfl | hq'l₁
          · exact absurd hq'q hqnot
          · exact hstrict q' hq'l₁ hq'q

/-- Characterization of the whole selection loop of `findBestSpots`: either no
spot qualifies and the state is untouched, or the state holds the first spot
attaining the maximal rounded `netProfit` among the qualifying ones. -/
theorem bestSpotState_spec (dist : DistFn) (b : Bagan) (spots : List Spot) :
    (bestSpotState dist b spots = ⟨none, none, minProfitThreshold⟩ ∧
      ∀ s ∈ spots, ¬ qualifies dist b s) ∨
    (∃ s l₁ l₂, spots = l₁ ++ s :: l₂ ∧
      bestSpotState dist b spots =
        ⟨some s, (shouldMoveBagan dist b s).analysis, (moveNet dist b s : ℚ)⟩ ∧
      qualifies dist b s ∧
      (∀ q ∈ spots, qualifies dist b q → moveNet dist b q ≤ moveNet dist b s) ∧
      (∀ q ∈ l₁, qualifies dist b q → moveNet dist b q < moveNet dist b s)) := by
  induction spots with
  | nil => exact Or.inl ⟨rfl, by simp⟩
  | cons q l ih =>
    unfold bestSpotState at ih ⊢
    rw [List.foldl_cons]
    by_cases hq : qualifies dist b q
    · -- the first step adopts q
      obtain ⟨a, ha⟩ := shouldMoveBagan_analysis_of_shouldMove dist b q hq.1
      have hcmp : (a.netProfit : ℚ) >
          (⟨none, none, minProfitThreshold⟩ : BestState).maxProfit := by
        have := hq.2
        rw [moveNet_eq ha] at this
        exact this
      rw [bestSpotStep_adopt _ a hq.1 ha hcmp]
      have hstate :
          (⟨some q, some a, ((a.netProfit : ℚ))⟩ : BestState) =
          ⟨some q, (shouldMoveBagan dist b q).analysis, (moveNet dist b q : ℚ)⟩ := by
        rw [ha, moveNet_eq ha]
      rw [hstate]
      obtain ⟨s, hfold, hsq, hle, hall, hfirst⟩ := bestSpot_fold_aux dist b l q hq
      rcases hfirst with rfl | ⟨l₁, l₂, rfl, _hlt, hstrict⟩
      · refine Or.inr ⟨s, [], l, rfl, hfold, hsq, ?_, by simp⟩
        intro q' hq' hq'q
        rcases List.mem_cons.mp hq' with rfl | hq'l
        · exact le_refl _
        · exact hall q' hq'l hq'q
      · refine Or.inr ⟨s, q :: l₁, l₂, rfl, hfold, hsq, ?_, ?_⟩
        · intro q' hq' hq'q
          rcases List.mem_cons.mp hq' with rfl | hq'l
          · exact hle
          · exact hall q' hq'l hq'q
        · intro q' hq' hq'q
          rcases List.mem_cons.mp hq' with rfl | hq'l₁
          · exact lt_of_le_of_lt (le_refl _) _hlt
          · exact hstrict q' hq'l₁ hq'q
    · -- the first step leaves the initial state
      have hskip : bestSpotStep dist b ⟨none, none, minProfitThreshold⟩ q =
          ⟨none, none, minProfitThreshold⟩ := by
        by_cases hm : (shouldMoveBagan dist b q).shouldMove = true
        · obtain ⟨a, ha⟩ := shouldMoveBagan_analysis_of_shouldMove dist b q hm
          refine bestSpotStep_skip_le _ a ha ?_
          intro hgt
          exact hq ⟨hm, by rw [moveNet_eq ha]; exact hgt⟩
        · exact bestSpotStep_skip_notMove _ (Bool.not_eq_true _ ▸ hm)
      rw [hskip]
      rcases ih with ⟨hstate, hnone⟩ | ⟨s, l₁, l₂, rfl, hstate, hsq, hall, hstrict⟩
      · refine Or.inl ⟨hstate, ?_⟩
        intro s hs
        rcases List.mem_cons.mp hs with rfl | hsl
        · exact hq
        · exact hnone s hsl
      · refine Or.inr ⟨s, q :: l₁, l₂, rfl, hstate, hsq, ?_, ?_⟩
        · intro q' hq' hq'q
          rcases List.mem_cons.mp hq' with rfl | hq'l
          · exact absurd hq'q hq
          · exact hall q' hq'l hq'q
        · intro q' hq' hq'q
          rcases List.mem_cons.mp hq' with rfl | hq'l₁
          · exact absurd hq'q hq
          · exact hstrict q' hq'l₁ hq'q

-- ============================================================================
-- C10 — bestSpot/bestAnalysis are set together; "Not profitable enough" is dead
-- ============================================================================

/-- C10: in the per-platform selection loop, `bestSpot` and `bestAnalysis` are
non-null together, so every `stay` recommendation carries the reason
"No better spot found" — the "Not profitable enough" branch is unreachable. -/
theorem findBestSpots_stay_reason (dist : DistFn) (bagans : List Bagan)
    (spots : List Spot) :
    (∀ b : Bagan, (bestSpotState dist b spots).bestSpot.isSome =
      (bestSpotState dist b spots).bestAnalysis.isSome) ∧
    ∀ r ∈ findBestSpots dist bagans spots, ∀ reason sc ec,
      r.recommendation = .stay reason sc ec → reason = "No better spot found" := by
  constructor
  · intro b
    rcases bestSpotState_spec dist b spots with ⟨h, _⟩ |
      ⟨s, l₁, l₂, _, h, hq, _, _⟩
    · rw [h]
      rfl
    · obtain ⟨a, ha⟩ := shouldMoveBagan_analysis_of_shouldMove dist b s hq.1
      rw [h, ha]
      rfl
  · intro r hr reason sc ec hstay
    simp only [findBestSpots, List.mem_map] at hr
    obtain ⟨b, _hb, rfl⟩ := hr
    rcases bestSpotState_spec dist b spots with ⟨h, _⟩ |
      ⟨s, l₁, l₂, _, h, hq, _, _⟩
    · rw [h] at hstay
      simp at hstay
      exact hstay.1.symm
    · rw [h] at hstay
      simp at hstay

/-- Witness for C10: a bagan with no candidate spots stays with reason
"No better spot found". -/
theorem findBestSpots_stay_reason_witness :
    (⟨⟨1, 0, 0, 0⟩, .stay "No better spot found" 0 ⟨0, 0, 0⟩⟩ : BaganRecommendation) ∈
      findBestSpots (fun _ _ => 1) [⟨1, 0, 0, 0⟩] [] ∧
    "No better spot found" = "No better spot found" := by
  have hmem : (⟨⟨1, 0, 0, 0⟩, .stay "No better spot found" 0 ⟨0, 0, 0⟩⟩ :
      BaganRecommendation) ∈ findBestSpots (fun _ _ => 1) [⟨1, 0, 0, 0⟩] [] := by
    simp only [findBestSpots, bestSpotState, List.foldl_nil, List.map_cons,
      List.map_nil, estimateCatch, jsRound]
    norm_num [Int.floor_eq_iff]
  exact ⟨hmem,
    (findBestSpots_stay_reason (fun _ _ => 1) [⟨1, 0, 0, 0⟩] []).2 _ hmem
      "No better spot found" 0 ⟨0, 0, 0⟩ rfl⟩

-- ============================================================================
-- C4 — the planner compares rounded net profits
-- ============================================================================

/-- C4, counterexample: two candidate spots whose unrounded net profits are
2620000 and 2620000.4 both round to 2620000; the code keeps the first spot,
while the claimed unrounded-maximum selection (`specBestSpot`) picks the
second. -/
theorem findBestSpots_rounded_comparison_counterexample :
    unroundedNet (fun _ q => if q.lat = 1 then 1/8 else 12499/100000)
        ⟨1, 0, 0, 0⟩ ⟨1, 1, 0, 100⟩ <
      unroundedNet (fun _ q => if q.lat = 1 then 1/8 else 12499/100000)
        ⟨1, 0, 0, 0⟩ ⟨2, 2, 0, 100⟩ ∧
    (bestSpotState (fun _ q => if q.lat = 1 then 1/8 else 12499/100000)
        ⟨1, 0, 0, 0⟩ [⟨1, 1, 0, 100⟩, ⟨2, 2, 0, 100⟩]).bestSpot =
      some ⟨1, 1, 0, 100⟩ ∧
    specBestSpot (fun _ q => if q.lat = 1 then 1/8 else 12499/100000)
        ⟨1, 0, 0, 0⟩ [⟨1, 1, 0, 100⟩, ⟨2, 2, 0, 100⟩] = some ⟨2, 2, 0, 100⟩ := by
  refine ⟨?_, ?_, ?_⟩
  · simp only [unroundedNet, estimateCatch, calculateFuelCost, catchPricePerKg,
      fuelConsumptionTow, fuelPricePerLiter, jsRound, Spot.pos, Bagan.pos]
    norm_num [Int.floor_eq_iff]
  · simp only [bestSpotState, List.foldl_cons, List.foldl_nil, bestSpotStep,
      shouldMoveBagan, maxTowDistance, calculateTowTime, calculateFuelCost,
      estimateCatch, towSpeedKnots, setupTimeMinutes, fuelPricePerLiter,
      fuelConsumptionTow, catchPricePerKg, minProfitThreshold, jsRound, roundTo2,
      Spot.pos, Bagan.pos]
    norm_num [Int.floor_eq_iff]
  · simp only [specBestSpot, List.foldl_cons, List.foldl_nil, unroundedNet,
      estimateCatch, calculateFuelCost, catchPricePerKg, fuelConsumptionTow,
      fuelPricePerLiter, minProfitThreshold, maxTowDistance, jsRound,
      Spot.pos, Bagan.pos]
    norm_num [Int.floor_eq_iff]

/-- C4, amended: for every platform in the fleet, the planner's recommendation
is built from `bestSpotState`, which selects the first candidate attaining the
maximal **rounded** `netProfit` (`Math.round` applied inside the analysis)
among candidates with `shouldMove` true and rounded profit strictly above
`CONFIG.minProfitThreshold`; the spot and its analysis are recorded together. -/
theorem findBestSpots_max_rounded_netProfit (dist : DistFn) (bagans : List Bagan)
    (spots : List Spot) (b : Bagan) (hb : b ∈ bagans) :
    (⟨b, match (bestSpotState dist b spots).bestSpot with
      | some spot => Recommendation.move spot (bestSpotState dist b spots).bestAnalysis
      | none => Recommendation.stay
          (if (bestSpotState dist b spots).bestAnalysis.isSome
           then "Not profitable enough" else "No better spot found")
          b.score (estimateCatch b.score)⟩ : BaganRecommendation) ∈
      findBestSpots dist bagans spots ∧
    (((bestSpotState dist b spots).bestSpot = none ∧
        ∀ s ∈ spots, ¬ qualifies dist b s) ∨
      (∃ s l₁ l₂, spots = l₁ ++ s :: l₂ ∧
        (bestSpotState dist b spots).bestSpot = some s ∧
        (bestSpotState dist b spots).bestAnalysis =
          (shouldMoveBagan dist b s).analysis ∧
        qualifies dist b s ∧
        (∀ q ∈ spots, qualifies dist b q → moveNet dist b q ≤ moveNet dist b s) ∧
        (∀ q ∈ l₁, qualifies dist b q → moveNet dist b q < moveNet dist b s))) := by
  constructor
  · simp only [findBestSpots, List.mem_map]
    refine ⟨b, hb, ?_⟩
    rcases h : (bestSpotState dist b spots).bestSpot with _ | spot <;> simp [h]
  · rcases bestSpotState_spec dist b spots with ⟨h, hnone⟩ |
      ⟨s, l₁, l₂, hdec, h, hq, hall, hstrict⟩
    · exact Or.inl ⟨by rw [h], hnone⟩
    · exact Or.inr ⟨s, l₁, l₂, hdec, by rw [h], by rw [h], hq, hall, hstrict⟩

/-- Witness for C4's amended theorem at a concrete fleet. -/
theorem findBestSpots_max_rounded_netProfit_witness :
    (⟨1, 0, 0, 0⟩ : Bagan) ∈ [(⟨1, 0, 0, 0⟩ : Bagan)] ∧
    ((⟨⟨1, 0, 0, 0⟩, match (bestSpotState (fun _ _ => 1) ⟨1, 0, 0, 0⟩ []).bestSpot with
      | some spot => Recommendation.move spot
          (bestSpotState (fun _ _ => 1) ⟨1, 0, 0, 0⟩ []).bestAnalysis
      | none => Recommendation.stay
          (if (bestSpotState (fun _ _ => 1) ⟨1, 0, 0, 0⟩ []).bestAnalysis.isSome
           then "Not profitable enough" else "No better spot found")
          (0 : ℚ) (estimateCatch 0)⟩ : BaganRecommendation) ∈
        findBestSpots (fun _ _ => 1) [⟨1, 0, 0, 0⟩] [] ∧
      (((bestSpotState (fun _ _ => 1) ⟨1, 0, 0, 0⟩ []).bestSpot = none ∧
          ∀ s ∈ ([] : List Spot), ¬ qualifies (fun _ _ => 1) ⟨1, 0, 0, 0⟩ s) ∨
        (∃ s l₁ l₂, ([] : List Spot) = l₁ ++ s :: l₂ ∧
          (bestSpotState (fun _ _ => 1) ⟨1, 0, 0, 0⟩ []).bestSpot = some s ∧
          (bestSpotState (fun _ _ => 1) ⟨1, 0, 0, 0⟩ []).bestAnalysis =
            (shouldMoveBagan (fun _ _ => 1) ⟨1, 0, 0, 0⟩ s).analysis ∧
          qualifies (fun _ _ => 1) ⟨1, 0, 0, 0⟩ s ∧
          (∀ q ∈ ([] : List Spot), qualifies (fun _ _ => 1) ⟨1, 0, 0, 0⟩ q →
            moveNet (fun _ _ => 1) ⟨1, 0, 0, 0⟩ q ≤
              moveNet (fun _ _ => 1) ⟨1, 0, 0, 0⟩ s) ∧
          (∀ q ∈ l₁, qualifies (fun _ _ => 1) ⟨1, 0, 0, 0⟩ q →
            moveNet (fun _ _ => 1) ⟨1, 0, 0, 0⟩ q <
              moveNet (fun _ _ => 1) ⟨1, 0, 0, 0⟩ s)))) :=
  ⟨List.mem_singleton.mpr rfl,
   findBestSpots_max_rounded_netProfit (fun _ _ => 1) [⟨1, 0, 0, 0⟩] [] ⟨1, 0, 0, 0⟩
     (List.mem_singleton.mpr rfl)⟩

-- ============================================================================
-- C3 — permutation search machinery
-- ============================================================================

/-- Every pair produced by `removeEach` reassembles to a permutation of the
input list. -/
theorem removeEach_perm {α : Type} :
    ∀ {l : List α} {p : α × List α}, p ∈ removeEach l → (p.1 :: p.2).Perm l := by
  intro l
  induction l with
  | nil => intro p h; simp [removeEach] at h
  | cons x xs ih =>
    intro p h
    simp only [removeEach, List.mem_cons, List.mem_map] at h
    rcases h with rfl | ⟨q, hq, rfl⟩
    · exact List.Perm.refl _
    · exact (List.Perm.swap x q.1 q.2).trans ((ih hq).cons x)

/-- Every member of `removeEach` points at the element removed together with
the list with its first occurrence erased; conversely, erasing any member is
reachable. -/
theorem mem_removeEach_of_mem {α : Type} [DecidableEq α] :
    ∀ {l : List α} {c : α}, c ∈ l → (c, l.erase c) ∈ removeEach l := by
  intro l
  induction l with
  | nil => intro c hc; simp at hc
  | cons x xs ih =>
    intro c hc
    by_cases hcx : c = x
    · subst hcx
      simp [removeEach, List.erase_cons_head]
    · rcases List.mem_cons.mp hc with h | h
      · exact absurd h hcx
      · simp only [removeEach, List.mem_cons, List.mem_map]
        right
        refine ⟨(c, xs.erase c), ih h, ?_⟩
        rw [List.erase_cons_tail]
        simp [hcx]
        intro hxc
        exact hcx (by simp [hxc])

/-- Soundness of the permutation generator: every output is a permutation of
the input (fuel-indexed induction on the length). -/
theorem perm_of_mem_generatePermutations_aux {α : Type} :
    ∀ (n : ℕ) (l : List α), l.length ≤ n →
      ∀ p ∈ generatePermutations l, p.Perm l := by
  intro n
  induction n with
  | zero =>
    intro l hl p hp
    have hnil : l = [] := List.length_eq_zero.mp (Nat.le_zero.mp hl)
    subst hnil
    rw [generatePermutations] at hp
    simp at hp
    subst hp
    exact List.Perm.refl _
  | succ n ih =>
    intro l hl p hp
    rw [generatePermutations] at hp
    split_ifs at hp with hlen
    · simp at hp
      subst hp
      exact List.Perm.refl _
    · simp only [List.mem_flatMap, List.mem_attach, List.mem_map, true_and,
        Subtype.exists] at hp
      obtain ⟨q, hq, perm, hperm, rfl⟩ := hp
      have hlen' : q.2.length ≤ n := by
        have := removeEach_length hq
        omega
      exact ((ih q.2 hlen' perm hperm).cons q.1).trans (removeEach_perm hq)

/-- Soundness of `generatePermutations`. -/
theorem perm_of_mem_generatePermutations {α : Type} {l p : List α}
    (hp : p ∈ generatePermutations l) : p.Perm l :=
  perm_of_mem_generatePermutations_aux l.length l le_rfl p hp

/-- Completeness of `generatePermutations`: every reordering of the input list
appears among the generated permutations. -/
theorem mem_generatePermutations_of_perm_aux {α : Type} [DecidableEq α] :
    ∀ (n : ℕ) (l p : List α), l.length ≤ n → p.Perm l →
      p ∈ generatePermutations l := by
  intro n
  induction n with
  | zero =>
    intro l p hl hp
    have hnil : l = [] := List.length_eq_zero.mp (Nat.le_zero.mp hl)
    subst hnil
    rw [generatePermutations]
    simp [hp.eq_nil]
  | succ n ih =>
    intro l p hl hp
    rw [generatePermutations]
    split_ifs with hlen
    · rcases l with _ | ⟨a, _ | ⟨b, t⟩⟩
      · simp [hp.eq_nil]
      · simp [List.perm_singleton.mp hp]
      · simp at hlen
    · rcases p with _ | ⟨c, p2⟩
      · exact absurd (hp.symm.eq_nil ▸ (by simp : ([] : List α).length ≤ 1)) hlen
      · have hc : c ∈ l := hp.mem_iff.mp (List.mem_cons_self c p2)
        have hq := mem_removeEach_of_mem hc
        have hp2 : p2.Perm (l.erase c) :=
          (List.perm_cons c).mp (hp.trans (List.perm_cons_erase hc))
        have hlen' : (l.erase c).length ≤ n := by
          have h2 : (l.erase c).length + 1 = l.length := removeEach_length hq
          omega
        simp only [List.mem_flatMap, List.mem_attach, List.mem_map, true_and,
          Subtype.exists]
        exact ⟨(c, l.erase c), hq, p2, ih (l.erase c) p2 hlen' hp2, rfl⟩

/-- Completeness of `generatePermutations`. -/
theorem mem_generatePermutations_of_perm {α : Type} [DecidableEq α]
    {l p : List α} (hp : p.Perm l) : p ∈ generatePermutations l :=
  mem_generatePermutations_of_perm_aux l.length l p le_rfl hp

/-- Invariant of the `optimizeRoute` search loop from a seeded best: the
result is the first strict improvement over the seed and is minimal over seed
and list. -/
theorem pickFirstMin_aux {α : Type} (d : α → ℚ) :
    ∀ (l : List α) (b : α),
    ∃ r, l.foldl
        (fun best perm =>
          match best with
          | none => some (perm, d perm)
          | some (b', m) => if d perm < m then some (perm, d perm) else some (b', m))
        (some (b, d b)) = some (r, d r) ∧
      d r ≤ d b ∧ (∀ p ∈ l, d r ≤ d p) ∧
      (r = b ∨ ∃ l₁ l₂, l = l₁ ++ r :: l₂ ∧ d r < d b ∧ ∀ p ∈ l₁, d r < d p) := by
  intro l
  induction l with
  | nil =>
    intro b
    exact ⟨b, rfl, le_refl _, by simp, Or.inl rfl⟩
  | cons q l ih =>
    intro b
    rw [List.foldl_cons]
    by_cases hlt : d q < d b
    · rw [show (match some (b, d b) with
          | none => some (q, d q)
          | some (b', m) => if d q < m then some (q, d q) else some (b', m)) =
          some (q, d q) by simp [hlt]]
      obtain ⟨r, hfold, hrb, hall, hfirst⟩ := ih q
      refine ⟨r, hfold, le_of_lt (lt_of_le_of_lt hrb hlt), ?_, ?_⟩
      · intro p hp
        rcases List.mem_cons.mp hp with rfl | hpl
        · exact hrb
        · exact hall p hpl
      · rcases hfirst with rfl | ⟨l₁, l₂, rfl, hrq, hstrict⟩
        · exact Or.inr ⟨[], l, rfl, hlt, by simp⟩
        · refine Or.inr ⟨q :: l₁, l₂, rfl, lt_trans hrq hlt, ?_⟩
          intro p hp
          rcases List.mem_cons.mp hp with rfl | hpl₁
          · exact hrq
          · exact hstrict p hpl₁
    · rw [show (match some (b, d b) with
          | none => some (q, d q)
          | some (b', m) => if d q < m then some (q, d q) else some (b', m)) =
          some (b, d b) by simp [hlt]]
      obtain ⟨r, hfold, hrb, hall, hfirst⟩ := ih b
      refine ⟨r, hfold, hrb, ?_, ?_⟩
      · intro p hp
        rcases List.mem_cons.mp hp with rfl | hpl
        · exact le_trans hrb (not_lt.mp hlt)
        · exact hall p hpl
      · rcases hfirst with rfl | ⟨l₁, l₂, rfl, hrb2, hstrict⟩
        · exact Or.inl rfl
        · refine Or.inr ⟨q :: l₁, l₂, rfl, hrb2, ?_⟩
          intro p hp
          rcases List.mem_cons.mp hp with rfl | hpl₁
          · exact lt_of_lt_of_le hrb2 (not_lt.mp hlt)
          · exact hstrict p hpl₁

/-- The search loop of `optimizeRoute` returns the first permutation attaining
the minimal value, and that value is minimal over the whole list. -/
theorem pickFirstMin_spec {α : Type} (d : α → ℚ) (q : α) (t : List α) :
    ∃ r l₁ l₂, pickFirstMin d (q :: t) = some (r, d r) ∧
      q :: t = l₁ ++ r :: l₂ ∧
      (∀ p ∈ q :: t, d r ≤ d p) ∧ ∀ p ∈ l₁, d r < d p := by
  unfold pickFirstMin
  rw [List.foldl_cons]
  obtain ⟨r, hfold, hrb, hall, hfirst⟩ := pickFirstMin_aux d t q
  refine ⟨r, ?_⟩
  rcases hfirst with rfl | ⟨l₁, l₂, rfl, hrq, hstrict⟩
  · refine ⟨[], t, hfold, rfl, ?_, by simp⟩
    intro p hp
    rcases List.mem_cons.mp hp with rfl | hpl
    · exact le_refl _
    · exact hall p hpl
  · refine ⟨q :: l₁, l₂, hfold, rfl, ?_, ?_⟩
    · intro p hp
      rcases List.mem_cons.mp hp with rfl | hpl
      · exact hrb
      · exact hall p hpl
    · intro p hp
      rcases List.mem_cons.mp hp with rfl | hpl₁
      · exact hrq
      · exact hstrict p hpl₁

/-- A throwaway move item used to instantiate witnesses. -/
def witnessItem (i : ℕ) : MoveItem :=
  ⟨⟨i, 0, 0, 0⟩, ⟨i, 0, 0, 0⟩,
   ⟨0, 0, 0, 0, 0, 0, 0, 0, ⟨0, 0, 0⟩, ⟨0, 0, 0⟩, 0, 0, 0, 0, false⟩⟩

/-- C3: `optimizeRoute` returns `null` for an empty move set and the trivial
single-step plan for one item, both without permutation search; for N ≥ 2 the
chosen order is a permutation of the move set whose step-summed distance is
less than or equal to that of **every** permutation, and it is the first
permutation in generation order attaining the minimum (strictly better than
all earlier ones). -/
theorem optimizeRoute_minimal (dist : DistFn) (kapal : GeoPos) :
    optimizeRoute dist kapal [] = none ∧
    (∀ item : MoveItem, optimizeRoute dist kapal [item] =
      some (.single item (dist kapal item.bagan.pos) 0)) ∧
    ∀ items : List MoveItem, 2 ≤ items.length →
      ∃ best l₁ l₂,
        best.Perm items ∧
        (∀ p : List MoveItem, p.Perm items →
          permDistance dist kapal best ≤ permDistance dist kapal p) ∧
        generatePermutations items = l₁ ++ best :: l₂ ∧
        (∀ p ∈ l₁, permDistance dist kapal best < permDistance dist kapal p) ∧
        optimizeRoute dist kapal items =
          some (.multi (buildRouteDetails dist kapal best).1
            { totalBagans := best.length
              totalDistance := roundTo2 (buildRouteDetails dist kapal best).2.1
              totalTime := jsRound (buildRouteDetails dist kapal best).2.2
              totalFuelCost :=
                jsRound (calculateFuelCost (buildRouteDetails dist kapal best).2.1)
              totalExpectedProfit :=
                best.foldl (fun sum item => sum + item.analysis.netProfit) 0 }) := by
  refine ⟨rfl, fun item => rfl, ?_⟩
  intro items hlen
  rcases items with _ | ⟨a, _ | ⟨b, t⟩⟩
  · simp at hlen
  · simp at hlen
  · have hself : (a :: b :: t) ∈ generatePermutations (a :: b :: t) :=
      mem_generatePermutations_of_perm (List.Perm.refl _)
    rcases hp : generatePermutations (a :: b :: t) with _ | ⟨p0, ps⟩
    · rw [hp] at hself
      simp at hself
    · obtain ⟨r, l₁, l₂, hpick, hdec, hall, hstrict⟩ :=
        pickFirstMin_spec (permDistance dist kapal) p0 ps
      have hpick2 : pickFirstMin (permDistance dist kapal)
          (generatePermutations (a :: b :: t)) =
          some (r, permDistance dist kapal r) := by
        rw [hp]
        exact hpick
      have hmem : r ∈ generatePermutations (a :: b :: t) := by
        rw [hp, hdec]
        simp
      refine ⟨r, l₁, l₂, perm_of_mem_generatePermutations hmem, ?_,
        hdec, hstrict, ?_⟩
      · intro p hperm
        have hpmem : p ∈ generatePermutations (a :: b :: t) :=
          mem_generatePermutations_of_perm hperm
        rw [hp] at hpmem
        exact hall p hpmem
      · have hred : optimizeRoute dist kapal (a :: b :: t) =
            match pickFirstMin (permDistance dist kapal)
                (generatePermutations (a :: b :: t)) with
            | none => none
            | some (bestRoute, _) =>
              some (.multi (buildRouteDetails dist kapal bestRoute).1
                { totalBagans := bestRoute.length
                  totalDistance := roundTo2 (buildRouteDetails dist kapal bestRoute).2.1
                  totalTime := jsRound (buildRouteDetails dist kapal bestRoute).2.2
                  totalFuelCost := jsRound
                    (calculateFuelCost (buildRouteDetails dist kapal bestRoute).2.1)
                  totalExpectedProfit := bestRoute.foldl
                    (fun sum item => sum + item.analysis.netProfit) 0 }) := rfl
        rw [hred, hpick2]

/-- Witness for C3: the N ≥ 2 branch applied to a concrete two-item move set. -/
theorem optimizeRoute_minimal_witness :
    2 ≤ ([witnessItem 1, witnessItem 2] : List MoveItem).length ∧
    (∃ best l₁ l₂,
      best.Perm [witnessItem 1, witnessItem 2] ∧
      (∀ p : List MoveItem, p.Perm [witnessItem 1, witnessItem 2] →
        permDistance (fun _ _ => 0) ⟨0, 0⟩ best ≤ permDistance (fun _ _ => 0) ⟨0, 0⟩ p) ∧
      generatePermutations [witnessItem 1, witnessItem 2] = l₁ ++ best :: l₂ ∧
      (∀ p ∈ l₁, permDistance (fun _ _ => 0) ⟨0, 0⟩ best <
        permDistance (fun _ _ => 0) ⟨0, 0⟩ p) ∧
      optimizeRoute (fun _ _ => 0) ⟨0, 0⟩ [witnessItem 1, witnessItem 2] =
        some (.multi (buildRouteDetails (fun _ _ => 0) ⟨0, 0⟩ best).1
          { totalBagans := best.length
            totalDistance := roundTo2 (buildRouteDetails (fun _ _ => 0) ⟨0, 0⟩ best).2.1
            totalTime := jsRound (buildRouteDetails (fun _ _ => 0) ⟨0, 0⟩ best).2.2
            totalFuelCost := jsRound
              (calculateFuelCost (buildRouteDetails (fun _ _ => 0) ⟨0, 0⟩ best).2.1)
            totalExpectedProfit := best.foldl
              (fun sum item => sum + item.analysis.netProfit) 0 })) :=
  ⟨by simp,
   (optimizeRoute_minimal (fun _ _ => 0) ⟨0, 0⟩).2.2
     [witnessItem 1, witnessItem 2] (by simp)⟩

-- ============================================================================
-- C2 — the orchestrator crashes on a single-move plan
-- ============================================================================

/-- `generatePermutations` returns the singleton for short inputs. -/
theorem generatePermutations_short {α : Type} (arr : List α) (h : arr.length ≤ 1) :
    generatePermutations arr = [arr] := by
  rw [generatePermutations]
  simp [h]

/-- `generatePermutations` on a two-element array, in generation order. -/
theorem generatePermutations_pair {α : Type} (x y : α) :
    generatePermutations [x, y] = [[x, y], [y, x]] := by
  rw [generatePermutations]
  simp [removeEach, generatePermutations_short]

/-- C2: with exactly one platform recommended to move, `optimizeRoute` returns
the single-item shape, which has no `summary` property; the orchestrator then
evaluates `optimizedRoute.summary.totalDistance` and throws a `TypeError`
(modelled by the `none` result) instead of returning an `OptimizationResult`. -/
theorem optimizeBaganOperations_single_move_crash :
    (moveItems (findBestSpots (fun _ _ => 1) [⟨1, 0, 0, 0⟩] [⟨1, 1, 0, 100⟩])).length
      = 1 ∧
    (optimizeRoute (fun _ _ => 1) ⟨0, 0⟩
      (moveItems (findBestSpots (fun _ _ => 1) [⟨1, 0, 0, 0⟩] [⟨1, 1, 0, 100⟩]))).map
        RouteResult.summary? = some none ∧
    optimizeBaganOperations (fun _ _ => 1) ⟨0, 0⟩ [⟨1, 0, 0, 0⟩] [⟨1, 1, 0, 100⟩] =
      none := by
  refine ⟨?_, ?_, ?_⟩ <;>
  · simp only [optimizeBaganOperations, moveItems, findBestSpots, bestSpotState,
      bestSpotStep, shouldMoveBagan, optimizeRoute, RouteResult.summary?,
      List.foldl_cons, List.foldl_nil, List.map_cons, List.map_nil, maxTowDistance,
      calculateTowTime, calculateFuelCost, estimateCatch, towSpeedKnots,
      setupTimeMinutes, fuelPricePerLiter, fuelConsumptionTow, catchPricePerKg,
      minProfitThreshold, jsRound, roundTo2, Spot.pos, Bagan.pos]
    norm_num [Int.floor_eq_iff, List.filterMap_cons, List.filterMap_nil,
      RouteResult.summary?]

-- ============================================================================
-- C8 — the orchestrator roi is not guarded against zero fuel cost
-- ============================================================================

/-- C8, counterexample: a reachable optimization run (two platforms moved over
zero distance) whose route summary has `totalFuelCost = 0`; its `roi` is the
result of the unguarded division — non-finite, modelled `none` — not a
well-defined number. -/
theorem optimizeBaganOperations_roi_zero_fuel_counterexample :
    ((optimizeBaganOperations (fun _ _ => 0) ⟨0, 0⟩ [⟨1, 0, 0, 0⟩, ⟨2, 0, 0, 0⟩]
        [⟨1, 1, 0, 100⟩]).map (fun r => r.optimizedRoute.isSome)) = some true ∧
    ((optimizeBaganOperations (fun _ _ => 0) ⟨0, 0⟩ [⟨1, 0, 0, 0⟩, ⟨2, 0, 0, 0⟩]
        [⟨1, 1, 0, 100⟩]).bind OptimizationResult.estimatedTotals) =
      some ⟨0, 40, 0, 5250000, 5250000, none⟩ := by
  have h1 : moveItems (findBestSpots (fun _ _ => 0) [⟨1, 0, 0, 0⟩, ⟨2, 0, 0, 0⟩]
      [⟨1, 1, 0, 100⟩]) =
      [⟨⟨1, 0, 0, 0⟩, ⟨1, 1, 0, 100⟩,
        ⟨0, 100, 100, 0, 0, 20, 20, 0, ⟨0, 0, 0⟩, ⟨60, 90, 75⟩, 75, 2625000,
         2625000, 0, true⟩⟩,
       ⟨⟨2, 0, 0, 0⟩, ⟨1, 1, 0, 100⟩,
        ⟨0, 100, 100, 0, 0, 20, 20, 0, ⟨0, 0, 0⟩, ⟨60, 90, 75⟩, 75, 2625000,
         2625000, 0, true⟩⟩] := by
    simp only [moveItems, findBestSpots, bestSpotState, bestSpotStep, shouldMoveBagan,
      List.foldl_cons, List.foldl_nil, List.map_cons, List.map_nil,
      List.filterMap_cons, List.filterMap_nil, maxTowDistance,
      calculateTowTime, calculateFuelCost, estimateCatch, towSpeedKnots,
      setupTimeMinutes, fuelPricePerLiter, fuelConsumptionTow, catchPricePerKg,
      minProfitThreshold, jsRound, roundTo2, Spot.pos, Bagan.pos]
    norm_num [Int.floor_eq_iff]
  constructor <;>
  · simp only [optimizeBaganOperations, h1, optimizeRoute, generatePermutations_pair,
      pickFirstMin, permDistance, buildRouteDetails, RouteResult.summary?,
      List.foldl_cons, List.foldl_nil, List.length_cons, List.length_nil,
      calculateTowTime, calculateFuelCost, towSpeedKnots, setupTimeMinutes,
      fuelPricePerLiter, fuelConsumptionTow, jsRound, roundTo2, roundTo1,
      Spot.pos, Bagan.pos]
    norm_num [Int.floor_eq_iff]

/-- C8, amended: the orchestrator's roi is computed with **no** guard; whenever
the produced `estimatedTotals` has `totalFuelCost = 0` the roi is the
non-finite result of dividing by zero (`none`), and only otherwise is it the
rounded percentage `(totalExpectedProfit - totalFuelCost)/totalFuelCost*100`.
(`shouldMoveBagan`'s internal roi, by contrast, is guarded.) -/
theorem optimizeBaganOperations_roi_characterization (dist : DistFn)
    (kapal : GeoPos) (bagans : List Bagan) (spots : List Spot)
    (t : EstimatedTotals)
    (ht : (optimizeBaganOperations dist kapal bagans spots).bind
      OptimizationResult.estimatedTotals = some t) :
    (t.totalFuelCost = 0 → t.roi = none) ∧
    (t.totalFuelCost ≠ 0 → t.roi = some (roundTo1
      (((t.totalExpectedProfit - t.totalFuelCost : ℤ) : ℚ) /
        (t.totalFuelCost : ℚ) * 100))) ∧
    t.netProfit = t.totalExpectedProfit - t.totalFuelCost := by
  unfold optimizeBaganOperations at ht
  dsimp only at ht
  split at ht
  · simp at ht
  · rename_i route _
    split at ht
    · simp at ht
    · rename_i s _
      simp only [Option.bind_eq_bind, Option.some_bind] at ht
      obtain rfl : (⟨s.totalDistance, s.totalTime, s.totalFuelCost,
          s.totalExpectedProfit, s.totalExpectedProfit - s.totalFuelCost,
          if s.totalFuelCost = 0 then none
          else some (roundTo1 (((s.totalExpectedProfit - s.totalFuelCost : ℤ) : ℚ) /
            (s.totalFuelCost : ℚ) * 100))⟩ : EstimatedTotals) = t := by
        simpa using ht
      refine ⟨?_, ?_, rfl⟩
      · intro hz
        simp only at hz
        simp [hz]
      · intro hz
        simp only at hz
        simp [hz]

/-- Witness for C8's amended theorem at the zero-distance input. -/
theorem optimizeBaganOperations_roi_characterization_witness :
    ((optimizeBaganOperations (fun _ _ => 0) ⟨0, 0⟩ [⟨1, 0, 0, 0⟩, ⟨2, 0, 0, 0⟩]
        [⟨1, 1, 0, 100⟩]).bind OptimizationResult.estimatedTotals =
      some (⟨0, 40, 0, 5250000, 5250000, none⟩ : EstimatedTotals)) ∧
    ((0 : ℤ) = 0 → (none : Option ℚ) = none) := by
  have heval : (optimizeBaganOperations (fun _ _ => 0) ⟨0, 0⟩
      [⟨1, 0, 0, 0⟩, ⟨2, 0, 0, 0⟩] [⟨1, 1, 0, 100⟩]).bind
        OptimizationResult.estimatedTotals =
      some (⟨0, 40, 0, 5250000, 5250000, none⟩ : EstimatedTotals) := by
    have h1 : moveItems (findBestSpots (fun _ _ => 0) [⟨1, 0, 0, 0⟩, ⟨2, 0, 0, 0⟩]
        [⟨1, 1, 0, 100⟩]) =
        [⟨⟨1, 0, 0, 0⟩, ⟨1, 1, 0, 100⟩,
          ⟨0, 100, 100, 0, 0, 20, 20, 0, ⟨0, 0, 0⟩, ⟨60, 90, 75⟩, 75, 2625000,
           2625000, 0, true⟩⟩,
         ⟨⟨2, 0, 0, 0⟩, ⟨1, 1, 0, 100⟩,
          ⟨0, 100, 100, 0, 0, 20, 20, 0, ⟨0, 0, 0⟩, ⟨60, 90, 75⟩, 75, 2625000,
           2625000, 0, true⟩⟩] := by
      simp only [moveItems, findBestSpots, bestSpotState, bestSpotStep,
        shouldMoveBagan, List.foldl_cons, List.foldl_nil, List.map_cons,
        List.map_nil, List.filterMap_cons, List.filterMap_nil, maxTowDistance,
        calculateTowTime, calculateFuelCost, estimateCatch, towSpeedKnots,
        setupTimeMinutes, fuelPricePerLiter, fuelConsumptionTow, catchPricePerKg,
        minProfitThreshold, jsRound, roundTo2, Spot.pos, Bagan.pos]
      norm_num [Int.floor_eq_iff]
    simp only [optimizeBaganOperations, h1, optimizeRoute, generatePermutations_pair,
      pickFirstMin, permDistance, buildRouteDetails, RouteResult.summary?,
      List.foldl_cons, List.foldl_nil, List.length_cons, List.length_nil,
      calculateTowTime, calculateFuelCost, towSpeedKnots, setupTimeMinutes,
      fuelPricePerLiter, fuelConsumptionTow, jsRound, roundTo2, roundTo1,
      Spot.pos, Bagan.pos]
    norm_num [Int.floor_eq_iff]
  exact ⟨heval,
    fun h => (optimizeBaganOperations_roi_characterization (fun _ _ => 0) ⟨0, 0⟩
      [⟨1, 0, 0, 0⟩, ⟨2, 0, 0, 0⟩] [⟨1, 1, 0, 100⟩]
      ⟨0, 40, 0, 5250000, 5250000, none⟩ heval).1 h⟩

-- ============================================================================
-- C9 — the scanner's output properties
-- ============================================================================

/-- Membership through descending insertion. -/
theorem mem_insertDesc {s x : ScanSpot} :
    ∀ {l : List ScanSpot}, x ∈ insertDesc s l ↔ x = s ∨ x ∈ l := by
  intro l
  induction l with
  | nil => simp [insertDesc]
  | cons y ys ih =>
    simp only [insertDesc]
    split_ifs with h
    · simp only [List.mem_cons]
    · simp only [List.mem_cons, ih]
      tauto

/-- Descending insertion preserves descending score order. -/
theorem pairwise_insertDesc {s : ScanSpot} :
    ∀ {l : List ScanSpot}, l.Pairwise (fun a b => b.score ≤ a.score) →
      (insertDesc s l).Pairwise (fun a b => b.score ≤ a.score) := by
  intro l
  induction l with
  | nil => intro _; simp [insertDesc]
  | cons y ys ih =>
    intro h
    rw [List.pairwise_cons] at h
    obtain ⟨hy, hys⟩ := h
    simp only [insertDesc]
    split_ifs with hc
    · rw [List.pairwise_cons]
      refine ⟨?_, List.pairwise_cons.mpr ⟨hy, hys⟩⟩
      intro b hb
      rcases List.mem_cons.mp hb with rfl | hb
      · exact le_of_lt hc
      · exact le_trans (hy b hb) (le_of_lt hc)
    · rw [List.pairwise_cons]
      refine ⟨?_, ih hys⟩
      intro b hb
      rcases mem_insertDesc.mp hb with rfl | hb
      · exact not_lt.mp hc
      · exact hy b hb

/-- The scanner's sort does not add or drop spots. -/
theorem mem_sortByScoreDesc {x : ScanSpot} :
    ∀ {l : List ScanSpot}, x ∈ sortByScoreDesc l ↔ x ∈ l := by
  intro l
  induction l with
  | nil => simp [sortByScoreDesc]
  | cons y ys ih =>
    simp only [sortByScoreDesc, mem_insertDesc, List.mem_cons, ih]

/-- The scanner's sort produces a list in descending score order. -/
theorem pairwise_sortByScoreDesc :
    ∀ (l : List ScanSpot),
      (sortByScoreDesc l).Pairwise (fun a b => b.score ≤ a.score) := by
  intro l
  induction l with
  | nil => simp [sortByScoreDesc]
  | cons y ys ih => exact pairwise_insertDesc ih

/-- A scan step only ever appends spots whose score passed the `≥ 70` gate. -/
theorem scanStep_scores (dist : DistFn) (fetch : ℚ → ℚ → Except String ZoneData)
    (center : GeoPos) (bagans : List Bagan) (radius : ℚ)
    (st : List ScanSpot × ℕ) (pt : ℚ × ℚ)
    (h : ∀ s ∈ st.1, (70 : ℚ) ≤ s.score) :
    ∀ s ∈ (scanStep dist fetch center bagans radius st pt).1, (70 : ℚ) ≤ s.score := by
  intro s hs
  unfold scanStep at hs
  dsimp only at hs
  split_ifs at hs with h1 h2 h3
  · exact h s hs
  · exact h s hs
  · rcases List.mem_append.mp hs with hs | hs
    · exact h s hs
    · rcases List.mem_singleton.mp hs with rfl
      exact h3
  · exact h s hs

/-- The whole grid walk only accumulates spots with score at least 70. -/
theorem scanFold_scores (dist : DistFn) (fetch : ℚ → ℚ → Except String ZoneData)
    (center : GeoPos) (bagans : List Bagan) (radius : ℚ) :
    ∀ (pts : List (ℚ × ℚ)) (init : List ScanSpot × ℕ),
      (∀ s ∈ init.1, (70 : ℚ) ≤ s.score) →
      ∀ s ∈ (pts.foldl (scanStep dist fetch center bagans radius) init).1,
        (70 : ℚ) ≤ s.score := by
  intro pts
  induction pts with
  | nil => intro init h; exact h
  | cons pt pts ih =>
    intro init h
    rw [List.foldl_cons]
    exact ih _ (scanStep_scores dist fetch center bagans radius init pt h)

/-- The fallback of `estimateScoreForLocation`: a failed fetch yields the
fixed neutral score 75 rather than an error. -/
theorem estimateScoreForLocation_fallback
    (fetch : ℚ → ℚ → Except String ZoneData) (lat lng : ℚ) (e : String)
    (h : fetch lat lng = .error e) :
    estimateScoreForLocation fetch lat lng = 75 := by
  unfold estimateScoreForLocation
  rw [h]

/-- C9: the scanner's candidate list contains only spots with score ≥ 70, is
sorted in descending score order, has at most 20 entries; and a fetch failure
at a point yields the fixed fallback score 75 instead of aborting the scan. -/
theorem scanAreaForSpots_spec (dist : DistFn) (kmPerDegreeLng : ℚ)
    (fetch : ℚ → ℚ → Except String ZoneData) (center : GeoPos)
    (bagans : List Bagan) (radius : ℚ) :
    (∀ s ∈ scanAreaForSpots dist kmPerDegreeLng fetch center bagans radius,
      (70 : ℚ) ≤ s.score) ∧
    (scanAreaForSpots dist kmPerDegreeLng fetch center bagans radius).length ≤ 20 ∧
    (scanAreaForSpots dist kmPerDegreeLng fetch center bagans radius).Pairwise
      (fun a b => b.score ≤ a.score) ∧
    ∀ lat lng e, fetch lat lng = .error e →
      estimateScoreForLocation fetch lat lng = 75 := by
  refine ⟨?_, ?_, ?_, ?_⟩
  · intro s hs
    have h1 : s ∈ sortByScoreDesc
        (scanSpots dist kmPerDegreeLng fetch center bagans radius) :=
      List.mem_of_mem_take hs
    have h2 : s ∈ scanSpots dist kmPerDegreeLng fetch center bagans radius :=
      mem_sortByScoreDesc.mp h1
    unfold scanSpots at h2
    exact scanFold_scores dist fetch center bagans radius _ ([], 1)
      (by simp) s h2
  · exact List.length_take_le 20 _
  · exact (pairwise_sortByScoreDesc _).sublist (List.take_sublist 20 _)
  · intro lat lng e h
    exact estimateScoreForLocation_fallback fetch lat lng e h

/-- Witness for C9 at a concrete scan: radius 0 gives a single grid point,
whose fetch fails and falls back to score 75; it passes the 70 gate. -/
theorem scanAreaForSpots_spec_witness :
    (⟨1, 0, 0, 75, ⟨45, 68, 56⟩⟩ : ScanSpot) ∈
      scanAreaForSpots (fun _ _ => 0) 111 (fun _ _ => .error "down")
        ⟨0, 0⟩ [] 0 ∧
    (70 : ℚ) ≤ (75 : ℚ) ∧
    ((fun (_ _ : ℚ) => (Except.error "down" : Except String ZoneData)) 0 0 =
      .error "down" → estimateScoreForLocation
        (fun _ _ => .error "down") 0 0 = 75) := by
  have hmem : (⟨1, 0, 0, 75, ⟨45, 68, 56⟩⟩ : ScanSpot) ∈
      scanAreaForSpots (fun _ _ => 0) 111 (fun _ _ => .error "down")
        ⟨0, 0⟩ [] 0 := by
    simp only [scanAreaForSpots, scanSpots, gridOffsets]
    norm_num [List.range_succ]
    simp only [scanStep, estimateScoreForLocation, estimateCatch, jsRound, roundTo4]
    norm_num [Int.floor_eq_iff]
    simp [sortByScoreDesc, insertDesc]
  refine ⟨hmem, ?_, ?_⟩
  · have := (scanAreaForSpots_spec (fun _ _ => 0) 111 (fun _ _ => .error "down")
      ⟨0, 0⟩ [] 0).1 _ hmem
    simpa using this
  · intro h
    exact (scanAreaForSpots_spec (fun _ _ => 0) 111 (fun _ _ => .error "down")
      ⟨0, 0⟩ [] 0).2.2.2 0 0 "down" h

end SmartBagan
